import Mathlib

/-!
# Shallow embedding of emmet's VASP validation and task-document derivation

This file embeds, in Lean 4, the parts of the repository that the claims
speak about:

* `emmet/core/vasp/validation.py` — `DeprecationMessage`, `ValidationDoc`
  and `ValidationDoc.from_task_doc`;
* `emmet/core/vasp/task.py` — `TaskDocument` (the fields the above reads),
  `TaskDocument.run_type`, `TaskDocument.entry` and
  `TaskDocument.structure_entry`.

Modelling conventions:

* Python floats are modelled as `ℚ`; the comparisons the code performs
  (`< tolerance`, `< 1`, `> max_allowed_scf_gradient`) are exact on the
  values involved.
* Fallible Python operations (list indexing, `dict[key]`, `float(None)`,
  true division by zero) return `Except PyErr _`; `PyErr` names the Python
  exception class raised.
* A numpy true division (used only for `kpts_ratio`, whose denominator is
  a numpy integer when it is zero) does not raise: it yields `inf`/`nan`.
  Its result is the type `PyNum`; comparisons with `nan`/`inf` follow
  IEEE semantics (both `inf < t` and `nan < t` are false for finite `t`).
* Python `dict` literals/comprehensions are association lists built with
  Python's insertion-order, last-value-wins semantics (`dictOf`);
  `d.get(k, default)` and `d[k]` are lookups on them.
* Nested record fields that the code reads with `d["key"]` on documents
  produced by the task pipeline (e.g. `calcs_reversed[0]["output"]`)
  are required structure fields; fields read with `.get(k, default)`
  are `Option` fields with the code's default applied at the read.
* External collaborators declared out of scope by the repository
  (the pymatgen classifiers `run_type`/`task_type`, `oxide_type`, and the
  input-set constructors) are universally quantified function parameters.
-/

deriving instance DecidableEq for Except

namespace Emmet

/-- Python exception classes that the embedded code can raise. -/
inductive PyErr where
  | zeroDivision
  | keyError
  | indexError
  | typeError
  | valueError
deriving DecidableEq, Repr

/-- Result of a numpy true division: a finite float, `inf`, `-inf` or `nan`. -/
inductive PyNum where
  | fin (q : ℚ)
  | inf
  | neginf
  | nan
deriving DecidableEq, Repr

/-- numpy true division `a / b`: on a zero denominator it yields
`nan`/`inf`/`-inf` (with a runtime warning) instead of raising. -/
def npDiv (a b : ℚ) : PyNum :=
  if b = 0 then (if a = 0 then PyNum.nan else if 0 < a then PyNum.inf else PyNum.neginf)
  else PyNum.fin (a / b)

/-- IEEE `<` against a finite right-hand side: `inf < t` and `nan < t`
are false, `-inf < t` is true. -/
def PyNum.lt : PyNum → ℚ → Bool
  | PyNum.fin q, t => decide (q < t)
  | PyNum.inf, _ => false
  | PyNum.neginf, _ => true
  | PyNum.nan, _ => false

/-- Python list indexing `l[0]`: `IndexError` on an empty list. -/
def pyGet0 {α : Type} : List α → Except PyErr α
  | [] => Except.error PyErr.indexError
  | x :: _ => Except.ok x

/-- Python list indexing `l[-1]`: `IndexError` on an empty list. -/
def pyGetLast {α : Type} (l : List α) : Except PyErr α :=
  match l.getLast? with
  | none => Except.error PyErr.indexError
  | some x => Except.ok x

/-- Python `float(x)` on an optional value: `TypeError` on `None`. -/
def pyFloat (x : Option ℚ) : Except PyErr ℚ :=
  match x with
  | none => Except.error PyErr.typeError
  | some q => Except.ok q

/-- Python true division on Python numbers: `ZeroDivisionError` on a zero
denominator. -/
def pyDiv (a b : ℚ) : Except PyErr ℚ :=
  if b = 0 then Except.error PyErr.zeroDivision else Except.ok (a / b)

/-- Python slicing `l[i:]` with an optional start index: `l[None:]` is the
whole list; a negative start counts from the end, clamped at the front. -/
def pySliceFrom {α : Type} (l : List α) : Option Int → List α
  | none => l
  | some i => if 0 ≤ i then l.drop i.toNat else l.drop (l.length - (-i).toNat)

/-- numpy `np.gradient` on a 1-D sequence: second-order central differences
with one-sided differences at the boundary.  numpy raises `ValueError` when
the sequence has fewer than two entries. -/
def centralGrad (a b : ℚ) : List ℚ → List ℚ
  | [] => [b - a]
  | c :: rest => (c - a) / 2 :: centralGrad b c rest

def npGradient (l : List ℚ) : Except PyErr (List ℚ) :=
  match l with
  | e0 :: e1 :: rest => Except.ok ((e1 - e0) :: centralGrad e0 e1 rest)
  | _ => Except.error PyErr.valueError

/-- numpy `np.max` on a sequence: `ValueError` on an empty one. -/
def npMax (l : List ℚ) : Except PyErr ℚ :=
  match l with
  | [] => Except.error PyErr.valueError
  | x :: xs => Except.ok (xs.foldl max x)

/-- One insertion into a Python `dict` held as an association list:
an existing key keeps its position and gets the new value, a new key goes
to the back.  This is Python's insertion-order, last-value-wins semantics. -/
def dictInsert {β : Type} (d : List (String × β)) (k : String) (v : β) :
    List (String × β) :=
  if d.any (fun p => p.1 = k) then
    d.map (fun p => if p.1 = k then (k, v) else p)
  else d ++ [(k, v)]

/-- The Python `dict` built from a list of key/value pairs (as a dict
comprehension builds one): iterating it yields exactly this association
list. -/
def dictOf {β : Type} (l : List (String × β)) : List (String × β) :=
  l.foldl (fun d p => dictInsert d p.1 p.2) []

/-! ## The data model read by `ValidationDoc.from_task_doc` -/

/-- The slice of a pymatgen `Structure` the embedded code reads:
`symbol_set` (the element symbols) and, for entries, the composition,
kept as an opaque token. -/
structure Struct where
  comp : String
  symbol_set : List String
deriving DecidableEq, Repr

/-- `orig_inputs["kpoints"]`: the fields read via `.get`.
`nkpoints` and the explicit grid are both optional; `np.prod` multiplies
every entry of the (possibly nested) grid, so the grid is kept flat. -/
structure KpointsDict where
  nkpoints : Option Nat := none
  kpoints : Option (List Nat) := none
deriving DecidableEq, Repr

/-- `orig_inputs["incar"]`: the scalar keys the code reads via `.get`,
plus the list-valued LDAU-type keys as one association list
(`.get(k, [])` on it is `getLdau`). -/
structure IncarDict where
  ENCUT : Option ℚ := none
  NLEMDL : Option Int := none
  ldau : List (String × List ℚ) := []
deriving DecidableEq, Repr

/-- `inputs.get("incar", {}).get(k, [])` for an LDAU-type key `k`. -/
def IncarDict.getLdau (d : IncarDict) (k : String) : List ℚ :=
  ((dictOf d.ldau).lookup k).getD []

/-- `task_doc.orig_inputs`: the sub-dicts read via `.get("...", {})`. -/
structure OrigInputs where
  kpoints : Option KpointsDict := none
  incar : Option IncarDict := none
deriving DecidableEq, Repr

/-- The reference `valid_input_set.kpoints`: `num_kpts` and the grid list
`kpts` (a list of k-point triples; the code indexes `kpts[0]`). -/
structure RefKpoints where
  num_kpts : Nat := 0
  kpts : List (List Nat) := []
deriving DecidableEq, Repr

/-- The reference `valid_input_set.incar`: `["ENCUT"]` (a `KeyError` when
absent), the truthiness of `.get("LDAU")`, and the list-valued LDAU-type
keys as one dict (`.get(k)` on it is `ldauGet`, `None` when absent). -/
structure RefIncar where
  encut : Option ℚ := none
  LDAU : Bool := false
  ldau : List (String × List ℚ) := []
deriving DecidableEq, Repr

/-- `valid_input_set.incar.get(k)` for an LDAU-type key `k`. -/
def RefIncar.ldauGet (d : RefIncar) (k : String) : Option (List ℚ) :=
  (dictOf d.ldau).lookup k

/-- The slice of a pymatgen input set that `from_task_doc` reads:
`kpoints`, `incar`, and `poscar.structure.symbol_set`. -/
structure ValidInputSet where
  kpoints : RefKpoints := {}
  incar : RefIncar := {}
  poscar_symbols : List String := []
deriving Repr

/-! ## The data model of `TaskDocument` (the fields the claims touch) -/

/-- `InputSummary.parameters`: the code reads only `.get("LASPH", True)`. -/
structure InputParameters where
  LASPH : Option Bool := none
deriving DecidableEq, Repr

/-- `TaskDocument.input` (an `InputSummary`): the fields `entry` reads. -/
structure InputSummary where
  parameters : InputParameters := {}
  potcar_spec : List (String × String) := []
  is_hubbard : Bool := false
  hubbards : List (String × ℚ) := []
deriving DecidableEq, Repr

/-- `TaskDocument.output` (an `OutputSummary`): the fields the embedded
code reads.  `struct` embeds the `structure` field (`structure` is a Lean
keyword). -/
structure OutputSummary where
  struct : Struct
  energy : ℚ := 0
deriving DecidableEq, Repr

/-- One electronic step of `...["electronic_steps"]`: the code reads
`d["e_fr_energy"]`. -/
structure ElectronicStep where
  e_fr_energy : ℚ
deriving DecidableEq, Repr

/-- One ionic step of `calcs_reversed[0]["output"]["ionic_steps"]`. -/
structure IonicStep where
  electronic_steps : List ElectronicStep := []
deriving DecidableEq, Repr

/-- `calcs_reversed[i]["output"]`. -/
structure CalcOutput where
  ionic_steps : List IonicStep := []
deriving DecidableEq, Repr

/-- `calcs_reversed[i].get("input", {})`: `parameters` and the `incar`
LDAU-type keys, both read with `.get` defaults by `run_type`. -/
structure CalcInput where
  parameters : List (String × ℚ) := []
  incar : List (String × List ℚ) := []
deriving DecidableEq, Repr

/-- One raw per-calculation-step record of `calcs_reversed`. -/
structure CalcStep where
  input : Option CalcInput := none
  output : CalcOutput := {}
deriving DecidableEq, Repr

/-- The slice of a VASP `TaskDocument` that `from_task_doc`, `entry` and
`structure_entry` read.  `tags` and `last_updated` come from the base task
document (`emmet.core.task`). -/
structure TaskDocument where
  task_id : Int
  tags : List String := []
  last_updated : Nat := 0
  input : InputSummary := {}
  output : OutputSummary
  orig_inputs : OrigInputs := {}
  calcs_reversed : List CalcStep := []
deriving DecidableEq, Repr

/-- `TaskDocument.run_type`: classifies the merged
`{**parameters, **ldau_fields}` of `calcs_reversed[0]` with the external
pymatgen classifier `rtc`. -/
def TaskDocument.runType
    (rtc : List (String × ℚ) → List (String × List ℚ) → String)
    (td : TaskDocument) : Except PyErr String := do
  let c0 ← pyGet0 td.calcs_reversed
  let inp := c0.input.getD {}
  let ldau_fields := ["LDAUL", "LDAUJ", "LDAUU"].map
    (fun k => (k, ((dictOf inp.incar).lookup k).getD []))
  Except.ok (rtc inp.parameters ldau_fields)

/-! ## The derived entries (`task.py`) -/

/-- The `parameters` sub-record of a derived `ComputedEntry`. -/
structure EntryParameters where
  potcar_spec : List (String × String)
  is_hubbard : Bool
  hubbards : List (String × ℚ)
  run_type : String
deriving DecidableEq, Repr

/-- The `data` sub-record of a derived `ComputedEntry`. -/
structure EntryData where
  oxide_type : String
  aspherical : Bool
  last_updated : Nat
deriving DecidableEq, Repr

/-- The derived `ComputedEntry` (the dict `TaskDocument.entry` builds;
`ComputedEntry.from_dict`/`as_dict` are modelled as the identity on it). -/
structure ComputedEntry where
  correction : ℚ
  entry_id : Int
  composition : String
  energy : ℚ
  parameters : EntryParameters
  data : EntryData
deriving DecidableEq, Repr

/-- The derived `ComputedStructureEntry`: a `ComputedEntry` plus the
embedded output structure. -/
structure ComputedStructureEntry extends ComputedEntry where
  struct : Struct
deriving DecidableEq, Repr

/-- `TaskDocument.entry`: the dict built at `task.py` lines 146-163,
with the external `oxide_type` classifier `ox`. -/
def TaskDocument.entry
    (rtc : List (String × ℚ) → List (String × List ℚ) → String)
    (ox : Struct → String) (td : TaskDocument) : Except PyErr ComputedEntry := do
  let rt ← td.runType rtc
  Except.ok
    { correction := 0
      entry_id := td.task_id
      composition := td.output.struct.comp
      energy := td.output.energy
      parameters :=
        { potcar_spec := td.input.potcar_spec
          is_hubbard := td.input.is_hubbard
          hubbards := td.input.hubbards
          run_type := rt }
      data :=
        { oxide_type := ox td.output.struct
          aspherical := td.input.parameters.LASPH.getD true
          last_updated := td.last_updated } }

/-- `TaskDocument.structure_entry`: `entry.as_dict()` with the output
structure inserted, read back as a `ComputedStructureEntry`. -/
def TaskDocument.structure_entry
    (rtc : List (String × ℚ) → List (String × List ℚ) → String)
    (ox : Struct → String) (td : TaskDocument) :
    Except PyErr ComputedStructureEntry := do
  let e ← td.entry rtc ox
  Except.ok { toComputedEntry := e, struct := td.output.struct }

/-! ## `ValidationDoc` and `from_task_doc` (`validation.py`) -/

/-- The `DeprecationMessage` enumeration. -/
inductive DeprecationMessage where
  | MANUAL
  | KPTS
  | ENCUT
  | FORCES
  | CONVERGENCE
  | MAX_SCF
  | LDAU
deriving DecidableEq, Repr

/-- The `data` dict of a `ValidationDoc`: the keys `from_task_doc` can
set.  `{}` (no key set) is the empty dict. -/
structure ValidationData where
  kpts_ratio : Option PyNum := none
  encut_ratio : Option ℚ := none
  max_gradient : Option ℚ := none
deriving DecidableEq, Repr

def ValidationData.empty : ValidationData := {}

/-- The fields of a `ValidationDoc` that `from_task_doc` fills
(`task_type` and `run_type` ride along through `extra = "allow"`). -/
structure ValidationDoc where
  task_id : Int
  task_type : String
  run_type : String
  valid : Bool
  reasons : List DeprecationMessage
  data : ValidationData
deriving DecidableEq, Repr

/-- The `ValidationDoc(...)` constructor call at `validation.py`
lines 142-149: `valid = (len(reasons) == 0)`. -/
def ValidationDoc.build (task_id : Int) (task_type run_type : String)
    (reasons : List DeprecationMessage) (data : ValidationData) :
    ValidationDoc :=
  { task_id := task_id
    task_type := task_type
    run_type := run_type
    valid := reasons.isEmpty
    reasons := reasons
    data := data }

/-- Lines 84-86: `valid_input_set.kpoints.num_kpts or
np.prod(valid_input_set.kpoints.kpts[0])` — the `or` evaluates the
product only when `num_kpts` is falsy, and `kpts[0]` can raise. -/
def validNumKpts (vis : ValidInputSet) : Except PyErr Nat :=
  if vis.kpoints.num_kpts ≠ 0 then Except.ok vis.kpoints.num_kpts
  else do
    let g ← pyGet0 vis.kpoints.kpts
    Except.ok (g.foldl (· * ·) 1)

/-- Lines 87-89: the observed k-point count, with the silent defaults
`.get("nkpoints", 0)` and `.get("kpoints", [1, 1, 1])`. -/
def numKpts (inputs : OrigInputs) : Nat :=
  let kd := inputs.kpoints.getD {}
  let nk := kd.nkpoints.getD 0
  if nk ≠ 0 then nk else (kd.kpoints.getD [1, 1, 1]).foldl (· * ·) 1

/-- Line 96: `valid_input_set.incar["ENCUT"]` — a `KeyError` when the
key is absent. -/
def refEncut (vis : ValidInputSet) : Except PyErr ℚ :=
  match vis.incar.encut with
  | some v => Except.ok v
  | none => Except.error PyErr.keyError

/-- Lines 95-97: `float(inputs.get("incar", {}).get("ENCUT")) /
valid_input_set.incar["ENCUT"]`. -/
def encutRatio (inputs : OrigInputs) (vis : ValidInputSet) : Except PyErr ℚ := do
  let valid_encut ← refEncut vis
  let e ← pyFloat (inputs.incar.getD {}).ENCUT
  pyDiv e valid_encut

/-- Lines 105-109: the observed per-element LDAU parameters,
`{d[0]: d[1:] for d in zip(*([symbol_set] + [incar.get(k, []) ...]))}`.
`assembleParams` is that `zip(*...)`: it pairs the i-th symbol with the
i-th entry of every field list and stops at the shortest list. -/
def assembleParams : List String → List (List ℚ) → List (String × List ℚ)
  | [], _ => []
  | s :: ss, fs =>
    if fs.all (fun f => !f.isEmpty) then
      (s, fs.map (fun f => f.headD 0)) :: assembleParams ss (fs.map List.tail)
    else []

def obsLdauParams (struct : Struct) (inputs : OrigInputs)
    (LDAU_fields : List String) : List (String × List ℚ) :=
  dictOf (assembleParams struct.symbol_set
    (LDAU_fields.map (fun k => (inputs.incar.getD {}).getLdau k)))

/-- Lines 112-118: the reference per-element LDAU parameters.  A missing
LDAU key makes `valid_input_set.incar.get(k)` a `None` inside
`zip(*...)`, a `TypeError`. -/
def refLdauParams (vis : ValidInputSet) (LDAU_fields : List String) :
    Except PyErr (List (String × List ℚ)) := do
  let refFields ← LDAU_fields.mapM (fun k =>
    match vis.incar.ldauGet k with
    | some l => Except.ok l
    | none => Except.error PyErr.typeError)
  Except.ok (dictOf (assembleParams vis.poscar_symbols refFields))

/-- Lines 120-123: `any(input_set_ldau_params[el] != input_params for el,
input_params in input_ldau_params.items())` — lazy, so the `KeyError` of
`[el]` fires only if no earlier element already differed. -/
def ldauAny (obs ref : List (String × List ℚ)) : Except PyErr Bool :=
  match obs with
  | [] => Except.ok false
  | (el, p) :: rest =>
    match ref.lookup el with
    | none => Except.error PyErr.keyError
    | some q => if q ≠ p then Except.ok true else ldauAny rest ref

/-- Lines 101-124 without the final `if`: whether the LDAU comparison
reports a mismatch. -/
def ldauCheck (struct : Struct) (inputs : OrigInputs) (vis : ValidInputSet)
    (LDAU_fields : List String) : Except PyErr Bool := do
  let ref ← refLdauParams vis LDAU_fields
  ldauAny (obsLdauParams struct inputs LDAU_fields) ref

/-- Lines 126-134: `np.max(np.gradient(energies)[skip:])` over the
electronic energies of the last ionic step of `calcs_reversed[0]`, with
`skip = inputs.get("incar", {}).get("NLEMDL")`. -/
def scfMaxGradient (inputs : OrigInputs) (calcs : List CalcStep) :
    Except PyErr ℚ := do
  let c0 ← pyGet0 calcs
  let ist ← pyGetLast c0.output.ionic_steps
  let grad ← npGradient (ist.electronic_steps.map (fun s => s.e_fr_energy))
  npMax (pySliceFrom grad (inputs.incar.getD {}).NLEMDL)

/-- Lines 101-124: the contribution of the Hubbard-U block to the reason
list — `[LDAU]` on a mismatch, `[]` otherwise or when the reference does
not require LDAU. -/
def ldauStage (struct : Struct) (inputs : OrigInputs) (vis : ValidInputSet)
    (LDAU_fields : List String) : Except PyErr (List DeprecationMessage) :=
  if vis.incar.LDAU then
    (ldauCheck struct inputs vis LDAU_fields).map
      (fun b => if b then [DeprecationMessage.LDAU] else [])
  else Except.ok []

/-- Lines 80-137: the checks performed when the task type has a
reference input set, with the reason list in append order and the
diagnostic `data` dict. -/
def refBranch (struct : Struct) (inputs : OrigInputs)
    (calcs : List CalcStep) (vis : ValidInputSet) (kpts_tolerance : ℚ)
    (LDAU_fields : List String) (max_allowed_scf_gradient : ℚ) :
    Except PyErr (List DeprecationMessage × ValidationData) := do
  let vnk ← validNumKpts vis
  let encut_ratio ← encutRatio inputs vis
  let rs3 ← ldauStage struct inputs vis LDAU_fields
  let mg ← scfMaxGradient inputs calcs
  Except.ok
    ((if (npDiv (numKpts inputs : ℚ) (vnk : ℚ)).lt kpts_tolerance then
        [DeprecationMessage.KPTS] else [])
      ++ ((if encut_ratio < 1 then [DeprecationMessage.ENCUT] else [])
      ++ (rs3
      ++ (if mg > max_allowed_scf_gradient then [DeprecationMessage.MAX_SCF] else []))),
    { kpts_ratio := some (npDiv (numKpts inputs : ℚ) (vnk : ℚ))
      encut_ratio := some encut_ratio
      max_gradient := some mg })

/-- Lines 139-140: `if set(task_doc.tags) | set(dep_tags_):` — the union
of the two tag sets is non-empty iff the concatenation of the two lists
is. -/
def manualStep (tags dep_tags : List String)
    (reasons : List DeprecationMessage) : List DeprecationMessage :=
  if tags ++ dep_tags = [] then reasons
  else reasons ++ [DeprecationMessage.MANUAL]

/-- Line 80: `if task_type in input_sets:` — the checks of lines 80-137
when the task type has a reference input set, nothing otherwise. -/
def ValidationDoc.checks (ttc : OrigInputs → String) (td : TaskDocument)
    (kpts_tolerance : ℚ)
    (input_sets : List (String × (Struct → ValidInputSet)))
    (LDAU_fields : List String) (max_allowed_scf_gradient : ℚ) :
    Except PyErr (List DeprecationMessage × ValidationData) :=
  match input_sets.lookup (ttc td.orig_inputs) with
  | none => Except.ok (([] : List DeprecationMessage), ValidationData.empty)
  | some mkSet =>
    refBranch td.output.struct td.orig_inputs td.calcs_reversed
      (mkSet td.output.struct) kpts_tolerance LDAU_fields
      max_allowed_scf_gradient

/-- `ValidationDoc.from_task_doc` (lines 52-150).  `ttc` is the external
`task_type` classifier of `orig_inputs`, `rtc` the external `run_type`
classifier; `input_sets` is the task-type → input-set dict. -/
def ValidationDoc.from_task_doc
    (ttc : OrigInputs → String)
    (rtc : List (String × ℚ) → List (String × List ℚ) → String)
    (td : TaskDocument) (kpts_tolerance : ℚ)
    (input_sets : List (String × (Struct → ValidInputSet)))
    (LDAU_fields : List String) (max_allowed_scf_gradient : ℚ)
    (deprecated_tags : Option (List String)) : Except PyErr ValidationDoc := do
  let dep_tags_ := deprecated_tags.getD []
  let p ← ValidationDoc.checks ttc td kpts_tolerance input_sets LDAU_fields
    max_allowed_scf_gradient
  let reasons := manualStep td.tags dep_tags_ p.1
  let rt ← td.runType rtc
  Except.ok (ValidationDoc.build td.task_id (ttc td.orig_inputs) rt reasons p.2)

/-! ## Concrete instances used to exercise the definitions -/

/-- A concrete external `task_type` classifier. -/
def wTTC : OrigInputs → String := fun _ => "Structure Optimization"

/-- A concrete external `run_type` classifier. -/
def wRTC : List (String × ℚ) → List (String × List ℚ) → String :=
  fun _ _ => "GGA+U"

/-- A concrete external `oxide_type` classifier. -/
def wOX : Struct → String := fun _ => "oxide"

/-- A concrete two-element structure. -/
def wStructFeO : Struct := { comp := "FeO", symbol_set := ["Fe", "O"] }

/-- A concrete reference input set: 125 reference k-points, reference
`ENCUT` 520, no LDAU. -/
def wVis : ValidInputSet :=
  { kpoints := { num_kpts := 125, kpts := [] }
    incar := { encut := some 520, LDAU := false, ldau := [] }
    poscar_symbols := ["Fe", "O"] }

/-- A concrete task document: 125 observed k-points, observed `ENCUT`
520, `NLEMDL = 0`, one calculation step whose last ionic step has
electronic energies `[-9, -10, -10]`, no tags. -/
def wTask : TaskDocument :=
  { task_id := 7
    output := { struct := wStructFeO, energy := -10 }
    orig_inputs :=
      { kpoints := some { nkpoints := some 125 }
        incar := some { ENCUT := some 520, NLEMDL := some 0 } }
    calcs_reversed := [{ output := { ionic_steps :=
      [{ electronic_steps := [⟨-9⟩, ⟨-10⟩, ⟨-10⟩] }] } }] }

/-- The input-set dict holding `wVis` under `wTask`'s task type. -/
def wInputSets : List (String × (Struct → ValidInputSet)) :=
  [("Structure Optimization", fun _ => wVis)]

/-- The validation document `from_task_doc` produces for `wTask` against
`wInputSets` (tolerance 9/10, SCF threshold 1, no deny-list). -/
def wDoc : ValidationDoc :=
  { task_id := 7
    task_type := "Structure Optimization"
    run_type := "GGA+U"
    valid := true
    reasons := []
    data := { kpts_ratio := some (PyNum.fin 1), encut_ratio := some 1
              max_gradient := some 0 } }

/-- A task with no tags and no original inputs (its task type is not in
an empty input-set dict). -/
def w2Task : TaskDocument :=
  { task_id := 3
    output := { struct := wStructFeO }
    calcs_reversed := [{}] }

/-- What `from_task_doc` produces for `w2Task` with an empty input-set
dict and the deny-list `["legacy-run"]`. -/
def w2Doc : ValidationDoc :=
  { task_id := 3
    task_type := "Structure Optimization"
    run_type := "GGA+U"
    valid := false
    reasons := [DeprecationMessage.MANUAL]
    data := ValidationData.empty }

/-- A reference input set whose reference `ENCUT` is zero. -/
def w3Vis : ValidInputSet :=
  { kpoints := { num_kpts := 25 }
    incar := { encut := some 0 }
    poscar_symbols := ["Fe", "O"] }

/-- The last ionic step of `wTask`'s only calculation step. -/
def wIst : IonicStep := { electronic_steps := [⟨-9⟩, ⟨-10⟩, ⟨-10⟩] }

/-- The only calculation step of `wTask`. -/
def wCalc : CalcStep := { output := { ionic_steps := [wIst] } }

/-- The entry derived from `wTask`. -/
def wEntry : ComputedEntry :=
  { correction := 0
    entry_id := 7
    composition := "FeO"
    energy := -10
    parameters := { potcar_spec := [], is_hubbard := false, hubbards := []
                    run_type := "GGA+U" }
    data := { oxide_type := "oxide", aspherical := true, last_updated := 0 } }

/-- `wTask` with its `kpoints` record removed from `orig_inputs`. -/
def wTask10 : TaskDocument :=
  { task_id := 7
    output := { struct := wStructFeO, energy := -10 }
    orig_inputs :=
      { kpoints := none
        incar := some { ENCUT := some 520, NLEMDL := some 0 } }
    calcs_reversed := [{ output := { ionic_steps := [wIst] } }] }

/-- A reference input set with 25 reference k-points. -/
def wVis10 : ValidInputSet :=
  { kpoints := { num_kpts := 25 }
    incar := { encut := some 520 }
    poscar_symbols := ["Fe", "O"] }

def wInputSets10 : List (String × (Struct → ValidInputSet)) :=
  [("Structure Optimization", fun _ => wVis10)]

/-- The validation document `from_task_doc` produces for `wTask10`
against `wInputSets10`: the silently defaulted k-point count of 1 gives
ratio 1/25, below the tolerance, so `KPTS` is flagged. -/
def wDoc10 : ValidationDoc :=
  { task_id := 7
    task_type := "Structure Optimization"
    run_type := "GGA+U"
    valid := false
    reasons := [DeprecationMessage.KPTS]
    data := { kpts_ratio := some (PyNum.fin (1/25)), encut_ratio := some 1
              max_gradient := some 0 } }

/-- Observed LDAU inputs with element order Fe, O. -/
def wLdauInputs1 : OrigInputs :=
  { incar := some { ldau :=
      [("LDAUU", [5, 0]), ("LDAUJ", [0, 0]), ("LDAUL", [2, -1])] } }

/-- The same observed LDAU inputs with element order O, Fe. -/
def wLdauInputs2 : OrigInputs :=
  { incar := some { ldau :=
      [("LDAUU", [0, 5]), ("LDAUJ", [0, 0]), ("LDAUL", [-1, 2])] } }

/-- `wStructFeO` with its element order reversed. -/
def wStructOFe : Struct := { comp := "FeO", symbol_set := ["O", "Fe"] }

/-- A reference input set requiring LDAU, element order Fe, O. -/
def wLdauVis1 : ValidInputSet :=
  { incar := { LDAU := true, ldau :=
      [("LDAUU", [5, 0]), ("LDAUJ", [0, 0]), ("LDAUL", [2, -1])] }
    poscar_symbols := ["Fe", "O"] }

/-- The same reference input set with element order O, Fe. -/
def wLdauVis2 : ValidInputSet :=
  { incar := { LDAU := true, ldau :=
      [("LDAUU", [0, 5]), ("LDAUJ", [0, 0]), ("LDAUL", [-1, 2])] }
    poscar_symbols := ["O", "Fe"] }

/-- The reference per-element LDAU dict assembled from `wLdauVis1`. -/
def wLdauRef1 : List (String × List ℚ) :=
  [("Fe", [5, 0, 2]), ("O", [0, 0, -1])]

/-- The reference per-element LDAU dict assembled from `wLdauVis2`. -/
def wLdauRef2 : List (String × List ℚ) :=
  [("O", [0, 0, -1]), ("Fe", [5, 0, 2])]

/-! ## Basic lemmas about the embedding -/

/-- The concrete run of `from_task_doc` on `wTask`: every check passes. -/
theorem wTask_run_eq : ValidationDoc.from_task_doc wTTC wRTC wTask (9/10)
    wInputSets ["LDAUU", "LDAUJ", "LDAUL"] 1 none = Except.ok wDoc := by
  norm_num [ValidationDoc.from_task_doc, ValidationDoc.checks, refBranch,
    ldauStage, validNumKpts, numKpts,
    refEncut, encutRatio, ldauCheck, scfMaxGradient, npGradient, centralGrad,
    npMax, npDiv, PyNum.lt, pyGet0, pyGetLast, pyFloat, pyDiv, pySliceFrom,
    manualStep, ValidationDoc.build, ValidationData.empty, dictOf, dictInsert,
    IncarDict.getLdau, RefIncar.ldauGet, obsLdauParams, refLdauParams,
    assembleParams, ldauAny, TaskDocument.runType, wTask, wVis, wInputSets,
    wTTC, wRTC, wStructFeO, wDoc, wIst, bind, Except.bind, List.lookup]

/-- The concrete run of `from_task_doc` on `wTask10`: the missing
k-points record silently defaults and trips the `KPTS` check. -/
theorem wTask10_run_eq : ValidationDoc.from_task_doc wTTC wRTC wTask10 (9/10)
    wInputSets10 ["LDAUU", "LDAUJ", "LDAUL"] 1 none = Except.ok wDoc10 := by
  norm_num [ValidationDoc.from_task_doc, ValidationDoc.checks, refBranch,
    ldauStage, validNumKpts, numKpts,
    refEncut, encutRatio, ldauCheck, scfMaxGradient, npGradient, centralGrad,
    npMax, npDiv, PyNum.lt, pyGet0, pyGetLast, pyFloat, pyDiv, pySliceFrom,
    manualStep, ValidationDoc.build, ValidationData.empty, dictOf, dictInsert,
    IncarDict.getLdau, RefIncar.ldauGet, obsLdauParams, refLdauParams,
    assembleParams, ldauAny, TaskDocument.runType, wTask10, wVis10,
    wInputSets10, wTTC, wRTC, wStructFeO, wDoc10, wIst, bind, Except.bind,
    List.lookup]

theorem npGradient_example : npGradient [-9, -10, -10]
    = Except.ok [-1, -1/2, 0] := by
  norm_num [npGradient, centralGrad]

theorem ok_bind {α β : Type} (a : α) (f : α → Except PyErr β) :
    (Except.ok a >>= f : Except PyErr β) = f a := rfl

theorem error_bind {α β : Type} (e : PyErr) (f : α → Except PyErr β) :
    (Except.error e >>= f : Except PyErr β) = Except.error e := rfl

/-- Every successful `from_task_doc` run factors through `checks`,
`runType`, `manualStep` and `build`. -/
theorem from_task_doc_ok_shape (ttc : OrigInputs → String)
    (rtc : List (String × ℚ) → List (String × List ℚ) → String)
    (td : TaskDocument) (kt : ℚ)
    (is : List (String × (Struct → ValidInputSet))) (lf : List String)
    (ms : ℚ) (dep : Option (List String)) (doc : ValidationDoc)
    (h : ValidationDoc.from_task_doc ttc rtc td kt is lf ms dep = Except.ok doc) :
    ∃ p rt, ValidationDoc.checks ttc td kt is lf ms = Except.ok p
      ∧ td.runType rtc = Except.ok rt
      ∧ doc = ValidationDoc.build td.task_id (ttc td.orig_inputs) rt
          (manualStep td.tags (dep.getD []) p.1) p.2 := by
  unfold ValidationDoc.from_task_doc at h
  cases hc : ValidationDoc.checks ttc td kt is lf ms with
  | error e => rw [hc, error_bind] at h; exact absurd h (by simp)
  | ok p =>
    rw [hc, ok_bind] at h
    cases hr : td.runType rtc with
    | error e => rw [hr, error_bind] at h; exact absurd h (by simp)
    | ok rt =>
      rw [hr, ok_bind] at h
      exact ⟨p, rt, rfl, rfl, (by simpa using h.symm)⟩

/-- Every successful `refBranch` run factors through its four stages; the
LDAU stage contributes `[]` or `[LDAU]`. -/
theorem refBranch_ok_shape (struct : Struct) (inputs : OrigInputs)
    (calcs : List CalcStep) (vis : ValidInputSet) (kt : ℚ)
    (lf : List String) (ms : ℚ)
    (p : List DeprecationMessage × ValidationData)
    (h : refBranch struct inputs calcs vis kt lf ms = Except.ok p) :
    ∃ vnk er ll mgr, validNumKpts vis = Except.ok vnk
      ∧ encutRatio inputs vis = Except.ok er
      ∧ (ll = [] ∨ ll = [DeprecationMessage.LDAU])
      ∧ scfMaxGradient inputs calcs = Except.ok mgr
      ∧ p.1 = (if (npDiv (numKpts inputs : ℚ) (vnk : ℚ)).lt kt then
            [DeprecationMessage.KPTS] else [])
          ++ ((if er < 1 then [DeprecationMessage.ENCUT] else [])
          ++ (ll ++ (if mgr > ms then [DeprecationMessage.MAX_SCF] else [])))
      ∧ p.2 = { kpts_ratio := some (npDiv (numKpts inputs : ℚ) (vnk : ℚ))
                encut_ratio := some er
                max_gradient := some mgr } := by
  unfold refBranch at h
  cases hv : validNumKpts vis with
  | error e => rw [hv, error_bind] at h; exact absurd h (by simp)
  | ok vnk =>
    rw [hv, ok_bind] at h
    cases he : encutRatio inputs vis with
    | error e => rw [he, error_bind] at h; exact absurd h (by simp)
    | ok er =>
      rw [he, ok_bind] at h
      cases hl : ldauStage struct inputs vis lf with
      | error e => rw [hl, error_bind] at h; exact absurd h (by simp)
      | ok ll =>
        rw [hl, ok_bind] at h
        cases hs : scfMaxGradient inputs calcs with
        | error e => rw [hs, error_bind] at h; exact absurd h (by simp)
        | ok mgr =>
          rw [hs, ok_bind] at h
          refine ⟨vnk, er, ll, mgr, rfl, rfl, ?_, rfl, ?_, ?_⟩
          · -- the LDAU stage produces [] or [LDAU]
            unfold ldauStage at hl
            by_cases hld : vis.incar.LDAU
            · rw [if_pos hld] at hl
              cases hlc : ldauCheck struct inputs vis lf with
              | error e => rw [hlc] at hl; exact absurd hl (by simp [Except.map])
              | ok b =>
                rw [hlc] at hl
                cases b with
                | true => right; simpa [Except.map] using hl.symm
                | false => left; simpa [Except.map] using hl.symm
            · rw [if_neg hld] at hl
              left; simpa using hl.symm
          · have := congrArg Prod.fst (Except.ok.inj h)
            simpa using this.symm
          · have := congrArg Prod.snd (Except.ok.inj h)
            simpa using this.symm

/-- Reasons other than `MANUAL` pass through the manual-tag step
unchanged. -/
theorem mem_manualStep {m : DeprecationMessage} (t d : List String)
    (rs : List DeprecationMessage) (hm : m ≠ DeprecationMessage.MANUAL) :
    m ∈ manualStep t d rs ↔ m ∈ rs := by
  unfold manualStep; split <;> simp [hm]

theorem mem_ite_singleton {m x : DeprecationMessage} {c : Prop}
    [Decidable c] :
    m ∈ (if c then [x] else ([] : List DeprecationMessage)) ↔ c ∧ m = x := by
  split <;> simp_all

/-! ## C1: validity is emptiness of the reasons list -/

/-- C1: in every `ValidationDoc` that `from_task_doc` returns, `valid`
is true exactly when `reasons` is empty. -/
theorem valid_iff_reasons_empty (ttc : OrigInputs → String)
    (rtc : List (String × ℚ) → List (String × List ℚ) → String)
    (td : TaskDocument) (kt : ℚ)
    (is : List (String × (Struct → ValidInputSet))) (lf : List String)
    (ms : ℚ) (dep : Option (List String)) (doc : ValidationDoc)
    (h : ValidationDoc.from_task_doc ttc rtc td kt is lf ms dep = Except.ok doc) :
    doc.valid = true ↔ doc.reasons = [] := by
  obtain ⟨p, rt, -, -, rfl⟩ := from_task_doc_ok_shape ttc rtc td kt is lf ms dep doc h
  simp [ValidationDoc.build, List.isEmpty_iff]

/-! ## C6: without a reference input set, only the manual check applies -/

/-- C6: when the task type has no reference input set, the returned
document has an empty diagnostic `data` dict and its reasons carry none
of `KPTS`/`ENCUT`/`LDAU`/`MAX_SCF` — they are `[]` or `[MANUAL]`. -/
theorem no_input_set_only_manual (ttc : OrigInputs → String)
    (rtc : List (String × ℚ) → List (String × List ℚ) → String)
    (td : TaskDocument) (kt : ℚ)
    (is : List (String × (Struct → ValidInputSet))) (lf : List String)
    (ms : ℚ) (dep : Option (List String)) (doc : ValidationDoc)
    (hlk : is.lookup (ttc td.orig_inputs) = none)
    (h : ValidationDoc.from_task_doc ttc rtc td kt is lf ms dep = Except.ok doc) :
    doc.data = ValidationData.empty
      ∧ DeprecationMessage.KPTS ∉ doc.reasons
      ∧ DeprecationMessage.ENCUT ∉ doc.reasons
      ∧ DeprecationMessage.LDAU ∉ doc.reasons
      ∧ DeprecationMessage.MAX_SCF ∉ doc.reasons
      ∧ (doc.reasons = [] ∨ doc.reasons = [DeprecationMessage.MANUAL]) := by
  obtain ⟨p, rt, hc, -, rfl⟩ := from_task_doc_ok_shape ttc rtc td kt is lf ms dep doc h
  unfold ValidationDoc.checks at hc
  rw [hlk] at hc
  have hp : p = (([] : List DeprecationMessage), ValidationData.empty) :=
    (Except.ok.inj hc).symm
  subst hp
  have hms : manualStep td.tags (dep.getD []) [] = []
      ∨ manualStep td.tags (dep.getD []) [] = [DeprecationMessage.MANUAL] := by
    unfold manualStep; split
    · exact Or.inl rfl
    · exact Or.inr rfl
  rcases hms with h' | h' <;>
    refine ⟨rfl, ?_, ?_, ?_, ?_, ?_⟩ <;>
      simp [ValidationDoc.build, h']

/-! ## C7: the ENCUT flag fires exactly below ratio 1 -/

/-- C7: with a reference input set, the returned document records an
`encut_ratio` and carries the `ENCUT` flag exactly when that ratio is
strictly below 1; in particular a ratio of exactly 1 yields no flag. -/
theorem encut_flag_iff_ratio_lt_one (ttc : OrigInputs → String)
    (rtc : List (String × ℚ) → List (String × List ℚ) → String)
    (td : TaskDocument) (kt : ℚ)
    (is : List (String × (Struct → ValidInputSet))) (lf : List String)
    (ms : ℚ) (dep : Option (List String)) (doc : ValidationDoc)
    (mkSet : Struct → ValidInputSet)
    (hlk : is.lookup (ttc td.orig_inputs) = some mkSet)
    (h : ValidationDoc.from_task_doc ttc rtc td kt is lf ms dep = Except.ok doc) :
    ∃ r, doc.data.encut_ratio = some r
      ∧ (DeprecationMessage.ENCUT ∈ doc.reasons ↔ r < 1)
      ∧ (r = 1 → DeprecationMessage.ENCUT ∉ doc.reasons) := by
  obtain ⟨p, rt, hc, -, rfl⟩ := from_task_doc_ok_shape ttc rtc td kt is lf ms dep doc h
  unfold ValidationDoc.checks at hc
  rw [hlk] at hc
  obtain ⟨vnk, er, ll, mgr, -, -, hll, -, h1, h2⟩ :=
    refBranch_ok_shape _ _ _ _ _ _ _ _ hc
  have hiff : DeprecationMessage.ENCUT ∈
      (ValidationDoc.build td.task_id (ttc td.orig_inputs) rt
        (manualStep td.tags (dep.getD []) p.1) p.2).reasons ↔ er < 1 := by
    show DeprecationMessage.ENCUT ∈ manualStep td.tags (dep.getD []) p.1 ↔ er < 1
    rw [mem_manualStep _ _ _ (by simp), h1]
    rcases hll with rfl | rfl <;>
      simp [List.mem_append, mem_ite_singleton]
  refine ⟨er, ?_, hiff, fun hr => ?_⟩
  · show p.2.encut_ratio = some er
    rw [h2]
  · rw [hiff, hr]
    exact lt_irrefl 1

theorem pyGet0_of_head {α : Type} {l : List α} {a : α}
    (h : l.head? = some a) : pyGet0 l = Except.ok a := by
  cases l with
  | nil => simp at h
  | cons x xs => simp at h; simp [pyGet0, h]

theorem pyGetLast_of_getLast {α : Type} {l : List α} {a : α}
    (h : l.getLast? = some a) : pyGetLast l = Except.ok a := by
  unfold pyGetLast; rw [h]

/-! ## C5: the SCF-gradient check -/

/-- C5: with a reference input set, a successful run takes the electronic
energies of the *last* ionic step of `calcs_reversed[0]`, forms their
numeric gradient, drops the configured number `k` of leading entries
(`NLEMDL`, when non-negative), stores the maximum of the rest in
`data["max_gradient"]`, and flags `MAX_SCF` exactly when that maximum
strictly exceeds `max_allowed_scf_gradient`. -/
theorem scf_gradient_check_spec (ttc : OrigInputs → String)
    (rtc : List (String × ℚ) → List (String × List ℚ) → String)
    (td : TaskDocument) (kt : ℚ)
    (is : List (String × (Struct → ValidInputSet))) (lf : List String)
    (ms : ℚ) (dep : Option (List String)) (doc : ValidationDoc)
    (mkSet : Struct → ValidInputSet) (c0 : CalcStep) (ist : IonicStep)
    (k : Int)
    (hlk : is.lookup (ttc td.orig_inputs) = some mkSet)
    (h : ValidationDoc.from_task_doc ttc rtc td kt is lf ms dep = Except.ok doc)
    (hc0 : td.calcs_reversed.head? = some c0)
    (hist : c0.output.ionic_steps.getLast? = some ist)
    (hk : (td.orig_inputs.incar.getD {}).NLEMDL = some k)
    (hk0 : 0 ≤ k) :
    ∃ g mgr,
      npGradient (ist.electronic_steps.map (fun s => s.e_fr_energy))
          = Except.ok g
        ∧ npMax (g.drop k.toNat) = Except.ok mgr
        ∧ doc.data.max_gradient = some mgr
        ∧ (DeprecationMessage.MAX_SCF ∈ doc.reasons ↔ mgr > ms) := by
  obtain ⟨p, rt, hc, -, rfl⟩ := from_task_doc_ok_shape ttc rtc td kt is lf ms dep doc h
  unfold ValidationDoc.checks at hc
  rw [hlk] at hc
  obtain ⟨vnk, er, ll, mgr, -, -, hll, hs, h1, h2⟩ :=
    refBranch_ok_shape _ _ _ _ _ _ _ _ hc
  unfold scfMaxGradient at hs
  rw [pyGet0_of_head hc0, ok_bind, pyGetLast_of_getLast hist, ok_bind] at hs
  cases hg : npGradient (ist.electronic_steps.map (fun s => s.e_fr_energy)) with
  | error e => rw [hg, error_bind] at hs; exact absurd hs (by simp)
  | ok g =>
    rw [hg, ok_bind, hk] at hs
    rw [show pySliceFrom g (some k) = g.drop k.toNat by
      simp [pySliceFrom, hk0]] at hs
    refine ⟨g, mgr, rfl, hs, ?_, ?_⟩
    · show p.2.max_gradient = some mgr
      rw [h2]
    · show DeprecationMessage.MAX_SCF ∈ manualStep td.tags (dep.getD []) p.1 ↔ mgr > ms
      rw [mem_manualStep _ _ _ (by simp), h1]
      rcases hll with rfl | rfl <;>
        simp [List.mem_append, mem_ite_singleton, gt_iff_lt]

/-! ## C10: a missing k-points record silently defaults to one k-point -/

/-- C10: with a reference input set, a task whose `orig_inputs` has no
`kpoints` entry (or a zero `nkpoints` and no explicit grid) gets an
observed k-point count of `np.prod([1, 1, 1]) = 1`, and the recorded
`kpts_ratio` is 1 divided by the reference count — no missing-data error
is reported. -/
theorem missing_kpoints_defaults_to_one (ttc : OrigInputs → String)
    (rtc : List (String × ℚ) → List (String × List ℚ) → String)
    (td : TaskDocument) (kt : ℚ)
    (is : List (String × (Struct → ValidInputSet))) (lf : List String)
    (ms : ℚ) (dep : Option (List String)) (doc : ValidationDoc)
    (mkSet : Struct → ValidInputSet)
    (hlk : is.lookup (ttc td.orig_inputs) = some mkSet)
    (hkp : td.orig_inputs.kpoints = none
      ∨ ((td.orig_inputs.kpoints.getD {}).nkpoints.getD 0 = 0
          ∧ (td.orig_inputs.kpoints.getD {}).kpoints = none))
    (h : ValidationDoc.from_task_doc ttc rtc td kt is lf ms dep = Except.ok doc) :
    numKpts td.orig_inputs = 1
      ∧ ∃ vnk, validNumKpts (mkSet td.output.struct) = Except.ok vnk
          ∧ doc.data.kpts_ratio = some (npDiv 1 (vnk : ℚ))
          ∧ (vnk ≠ 0 →
              doc.data.kpts_ratio = some (PyNum.fin (1 / (vnk : ℚ)))) := by
  have hnum : numKpts td.orig_inputs = 1 := by
    rcases hkp with hn | ⟨h0, hgrid⟩
    · simp [numKpts, hn]
    · simp [numKpts, h0, hgrid]
  obtain ⟨p, rt, hc, -, rfl⟩ := from_task_doc_ok_shape ttc rtc td kt is lf ms dep doc h
  unfold ValidationDoc.checks at hc
  rw [hlk] at hc
  obtain ⟨vnk, er, ll, mgr, hv, -, -, -, -, h2⟩ :=
    refBranch_ok_shape _ _ _ _ _ _ _ _ hc
  have hdata : (ValidationDoc.build td.task_id (ttc td.orig_inputs) rt
      (manualStep td.tags (dep.getD []) p.1) p.2).data.kpts_ratio
        = some (npDiv 1 (vnk : ℚ)) := by
    show p.2.kpts_ratio = some (npDiv 1 (vnk : ℚ))
    rw [h2]
    simp [hnum]
  refine ⟨hnum, vnk, hv, hdata, fun hvz => ?_⟩
  rw [hdata]
  simp [npDiv, hvz]

/-! ## C3 (amended): a zero reference value raises, it is not reported -/

/-- C3 as the code behaves: when the reference input set carries a zero
reference `ENCUT` (and an observed `ENCUT` is present), `from_task_doc`
does not return a "cannot validate" outcome — the whole call raises an
uncaught `ZeroDivisionError`. -/
theorem zero_ref_encut_raises (ttc : OrigInputs → String)
    (rtc : List (String × ℚ) → List (String × List ℚ) → String)
    (td : TaskDocument) (kt : ℚ)
    (is : List (String × (Struct → ValidInputSet))) (lf : List String)
    (ms : ℚ) (dep : Option (List String))
    (mkSet : Struct → ValidInputSet) (vnk : Nat) (e : ℚ)
    (hlk : is.lookup (ttc td.orig_inputs) = some mkSet)
    (hv : validNumKpts (mkSet td.output.struct) = Except.ok vnk)
    (hz : (mkSet td.output.struct).incar.encut = some 0)
    (he : (td.orig_inputs.incar.getD {}).ENCUT = some e) :
    ValidationDoc.from_task_doc ttc rtc td kt is lf ms dep
      = Except.error PyErr.zeroDivision := by
  have hen : encutRatio td.orig_inputs (mkSet td.output.struct)
      = Except.error PyErr.zeroDivision := by
    unfold encutRatio
    rw [show refEncut (mkSet td.output.struct) = Except.ok 0 by
      unfold refEncut; rw [hz]]
    rw [ok_bind, he]
    simp [pyFloat, ok_bind, pyDiv]
  have hck : ValidationDoc.checks ttc td kt is lf ms
      = Except.error PyErr.zeroDivision := by
    unfold ValidationDoc.checks
    rw [hlk]
    show refBranch td.output.struct td.orig_inputs td.calcs_reversed
      (mkSet td.output.struct) kt lf ms = Except.error PyErr.zeroDivision
    unfold refBranch
    rw [hv, ok_bind, hen, error_bind]
  unfold ValidationDoc.from_task_doc
  rw [hck, error_bind]

/-! ## Dict and lookup lemmas for the Hubbard check -/

theorem dictInsert_of_fresh {β : Type} (d : List (String × β)) (k : String)
    (v : β) (h : ∀ p ∈ d, p.1 ≠ k) : dictInsert d k v = d ++ [(k, v)] := by
  have hc : d.any (fun p => p.1 = k) = false := by
    simp only [List.any_eq_false, decide_eq_true_eq]
    exact h
  simp [dictInsert, hc]

theorem nodup_keys_dictInsert {β : Type} (d : List (String × β))
    (k : String) (v : β) (h : (d.map Prod.fst).Nodup) :
    ((dictInsert d k v).map Prod.fst).Nodup := by
  by_cases hc : d.any (fun p => p.1 = k) = true
  · have heq : (dictInsert d k v).map Prod.fst = d.map Prod.fst := by
      simp only [dictInsert, if_pos hc, List.map_map]
      refine List.map_congr_left (fun p _ => ?_)
      by_cases hp : p.1 = k <;> simp [hp]
    rw [heq]; exact h
  · have hk : k ∉ d.map Prod.fst := by
      simp only [List.any_eq_true, decide_eq_true_eq, not_exists] at hc
      intro hm
      obtain ⟨p, hp, hpk⟩ := List.mem_map.mp hm
      exact hc p ⟨hp, hpk⟩
    have hc' : d.any (fun p => p.1 = k) = false := by
      cases hh : d.any (fun p => p.1 = k)
      · rfl
      · exact absurd hh hc
    simp only [dictInsert, hc', Bool.false_eq_true, if_false, List.map_append,
      List.map_cons, List.map_nil]
    rw [List.nodup_append]
    refine ⟨h, by simp, ?_⟩
    intro a ha
    simp only [List.mem_cons, List.not_mem_nil, or_false]
    intro hak
    subst hak
    exact hk ha

theorem nodup_keys_foldl_dictInsert {β : Type} (l acc : List (String × β))
    (h : (acc.map Prod.fst).Nodup) :
    ((l.foldl (fun d p => dictInsert d p.1 p.2) acc).map Prod.fst).Nodup := by
  induction l generalizing acc with
  | nil => simpa using h
  | cons p t ih =>
    rw [List.foldl_cons]
    exact ih _ (nodup_keys_dictInsert _ _ _ h)

/-- The keys of any Python dict are distinct. -/
theorem nodup_keys_dictOf {β : Type} (l : List (String × β)) :
    ((dictOf l).map Prod.fst).Nodup :=
  nodup_keys_foldl_dictInsert l [] (by simp)

theorem foldl_dictInsert_of_nodup {β : Type} (l acc : List (String × β))
    (h : ((acc ++ l).map Prod.fst).Nodup) :
    l.foldl (fun d p => dictInsert d p.1 p.2) acc = acc ++ l := by
  induction l generalizing acc with
  | nil => simp
  | cons p t ih =>
    have hnd := h
    rw [List.map_append, List.nodup_append] at hnd
    have hfresh : ∀ q ∈ acc, q.1 ≠ p.1 := by
      intro q hq hqp
      exact hnd.2.2 (List.mem_map.mpr ⟨q, hq, rfl⟩) (by simp [hqp])
    rw [List.foldl_cons, dictInsert_of_fresh acc p.1 p.2 hfresh]
    have hpe : acc ++ [(p.1, p.2)] = acc ++ [p] := by simp
    rw [hpe, ih (acc ++ [p]) (by simpa using h)]
    simp

/-- Building a Python dict from pairs with distinct keys keeps them as
they are. -/
theorem dictOf_eq_self_of_nodup {β : Type} (l : List (String × β))
    (h : (l.map Prod.fst).Nodup) : dictOf l = l := by
  have := foldl_dictInsert_of_nodup l [] (by simpa using h)
  simpa [dictOf] using this

theorem lookup_eq_some_of_mem {β : Type} {l : List (String × β)}
    {k : String} {v : β} (nd : (l.map Prod.fst).Nodup) (h : (k, v) ∈ l) :
    l.lookup k = some v := by
  induction l with
  | nil => simp at h
  | cons p t ih =>
    cases p with
    | mk a b =>
      rw [List.map_cons, List.nodup_cons] at nd
      rcases List.mem_cons.mp h with hh | hh
      · rw [Prod.mk.injEq] at hh
        obtain ⟨rfl, rfl⟩ := hh
        simp [List.lookup_cons]
      · have hk : k ≠ a := by
          rintro rfl
          exact nd.1 (List.mem_map.mpr ⟨(k, v), hh, rfl⟩)
        have hba : (k == a) = false := beq_eq_false_iff_ne.mpr hk
        simp only [List.lookup_cons, hba]
        exact ih nd.2 hh

theorem mem_of_lookup_eq_some {β : Type} {l : List (String × β)}
    {k : String} {v : β} (h : l.lookup k = some v) : (k, v) ∈ l := by
  induction l with
  | nil => simp [List.lookup] at h
  | cons p t ih =>
    cases p with
    | mk a b =>
      by_cases hk : k = a
      · subst hk
        simp only [List.lookup_cons, beq_self_eq_true, Option.some.injEq] at h
        subst h
        exact List.mem_cons_self _ _
      · have hba : (k == a) = false := beq_eq_false_iff_ne.mpr hk
        simp only [List.lookup_cons, hba] at h
        exact List.mem_cons_of_mem _ (ih h)

theorem lookup_isSome_iff_mem_keys {β : Type} (l : List (String × β))
    (k : String) : (l.lookup k).isSome = true ↔ k ∈ l.map Prod.fst := by
  induction l with
  | nil => simp [List.lookup]
  | cons p t ih =>
    cases p with
    | mk a b =>
      by_cases hk : k = a
      · subst hk
        simp [List.lookup_cons]
      · have hba : (k == a) = false := beq_eq_false_iff_ne.mpr hk
        simp only [List.lookup_cons, hba, List.map_cons, List.mem_cons]
        rw [ih]
        simp [hk]

/-- Looking a key up in a dict with distinct keys is invariant under a
permutation of its pairs. -/
theorem lookup_eq_of_perm {β : Type} {l₁ l₂ : List (String × β)}
    (h : List.Perm l₁ l₂) (nd : (l₁.map Prod.fst).Nodup) (k : String) :
    l₁.lookup k = l₂.lookup k := by
  have nd₂ : (l₂.map Prod.fst).Nodup := ((h.map Prod.fst).nodup_iff).mp nd
  cases hx : l₁.lookup k with
  | some v =>
    exact (lookup_eq_some_of_mem nd₂
      (h.mem_iff.mp (mem_of_lookup_eq_some hx))).symm
  | none =>
    have hk₁ : k ∉ l₁.map Prod.fst := by
      intro hm
      have := (lookup_isSome_iff_mem_keys l₁ k).mpr hm
      rw [hx] at this
      simp at this
    have hk₂ : k ∉ l₂.map Prod.fst := fun hm =>
      hk₁ (((h.map Prod.fst).mem_iff).mpr hm)
    cases hy : l₂.lookup k with
    | none => rfl
    | some v =>
      exact absurd ((lookup_isSome_iff_mem_keys l₂ k).mp
        (by rw [hy]; rfl)) hk₂

theorem ldauAny_cons_of_lookup (el : String) (pv q : List ℚ)
    (t ref : List (String × List ℚ)) (hq : ref.lookup el = some q) :
    ldauAny ((el, pv) :: t) ref
      = if q ≠ pv then Except.ok true else ldauAny t ref := by
  simp only [ldauAny, hq]

/-- `ldauAny` without a `KeyError`: it decides whether some observed
element's parameters differ from the reference dict's. -/
theorem ldauAny_eq_decide (obs ref : List (String × List ℚ))
    (hk : ∀ p ∈ obs, (ref.lookup p.1).isSome = true) :
    ldauAny obs ref
      = Except.ok (decide (∃ p ∈ obs, ¬ ref.lookup p.1 = some p.2)) := by
  induction obs with
  | nil => simp [ldauAny]
  | cons p t ih =>
    obtain ⟨q, hq⟩ := Option.isSome_iff_exists.mp (hk p (by simp))
    cases p with
    | mk el pv =>
      rw [ldauAny_cons_of_lookup el pv q t ref hq]
      by_cases hne : q ≠ pv
      · rw [if_pos hne]
        have hwit : ∃ p ∈ (el, pv) :: t, ¬ ref.lookup p.1 = some p.2 :=
          ⟨(el, pv), by simp, by rw [hq]; simpa using hne⟩
        rw [decide_eq_true hwit]
      · rw [if_neg hne]
        push_neg at hne
        rw [ih (fun p hp => hk p (by simp [hp]))]
        congr 1
        refine decide_eq_decide.mpr ?_
        rw [List.exists_mem_cons_iff]
        subst hne
        simp [hq]

theorem refLdauParams_ok_shape (vis : ValidInputSet) (F : List String)
    (r : List (String × List ℚ)) (h : refLdauParams vis F = Except.ok r) :
    ∃ fs, r = dictOf (assembleParams vis.poscar_symbols fs) := by
  unfold refLdauParams at h
  cases hm : (F.mapM fun k =>
      match vis.incar.ldauGet k with
      | some l => Except.ok l
      | none => Except.error PyErr.typeError) with
  | error e => rw [hm, error_bind] at h; exact absurd h (by simp)
  | ok fs =>
    rw [hm, ok_bind] at h
    exact ⟨fs, (Except.ok.inj h).symm⟩

/-! ## C4: the Hubbard check is order-independent -/

/-- C4: the Hubbard-U comparison is invariant under permuting the
element order of either the observed inputs or the reference input set
(given as permutations of the assembled per-element parameter
dictionaries, with every observed element present in the reference), and
it reports a mismatch exactly when some observed element's U/J/L
parameters differ from the reference's for that element. -/
theorem ldau_check_perm_invariant (st₁ st₂ : Struct)
    (i₁ i₂ : OrigInputs) (vis₁ vis₂ : ValidInputSet) (F : List String)
    (r₁ r₂ : List (String × List ℚ))
    (hobs : List.Perm (obsLdauParams st₁ i₁ F) (obsLdauParams st₂ i₂ F))
    (href₁ : refLdauParams vis₁ F = Except.ok r₁)
    (href₂ : refLdauParams vis₂ F = Except.ok r₂)
    (hr : List.Perm r₁ r₂)
    (hkeys : ∀ p ∈ obsLdauParams st₁ i₁ F, p.1 ∈ r₁.map Prod.fst) :
    ldauCheck st₁ i₁ vis₁ F = ldauCheck st₂ i₂ vis₂ F
      ∧ (ldauCheck st₁ i₁ vis₁ F = Except.ok true
          ↔ ∃ p ∈ obsLdauParams st₁ i₁ F, ¬ r₁.lookup p.1 = some p.2) := by
  obtain ⟨fs₁, hshape₁⟩ := refLdauParams_ok_shape vis₁ F r₁ href₁
  have nd₁ : (r₁.map Prod.fst).Nodup := by
    rw [hshape₁]; exact nodup_keys_dictOf _
  have hk₁ : ∀ p ∈ obsLdauParams st₁ i₁ F, (r₁.lookup p.1).isSome = true :=
    fun p hp => (lookup_isSome_iff_mem_keys _ _).mpr (hkeys p hp)
  have hk₂ : ∀ p ∈ obsLdauParams st₂ i₂ F, (r₂.lookup p.1).isSome = true :=
    fun p hp => (lookup_isSome_iff_mem_keys _ _).mpr
      (((hr.map Prod.fst).mem_iff).mp (hkeys p (hobs.mem_iff.mpr hp)))
  have e₁ : ldauCheck st₁ i₁ vis₁ F = Except.ok
      (decide (∃ p ∈ obsLdauParams st₁ i₁ F, ¬ r₁.lookup p.1 = some p.2)) := by
    unfold ldauCheck
    rw [href₁, ok_bind]
    exact ldauAny_eq_decide _ _ hk₁
  have e₂ : ldauCheck st₂ i₂ vis₂ F = Except.ok
      (decide (∃ p ∈ obsLdauParams st₂ i₂ F, ¬ r₂.lookup p.1 = some p.2)) := by
    unfold ldauCheck
    rw [href₂, ok_bind]
    exact ldauAny_eq_decide _ _ hk₂
  have hl : ∀ k, r₁.lookup k = r₂.lookup k := lookup_eq_of_perm hr nd₁
  have hPP : (∃ p ∈ obsLdauParams st₁ i₁ F, ¬ r₁.lookup p.1 = some p.2)
      ↔ ∃ p ∈ obsLdauParams st₂ i₂ F, ¬ r₂.lookup p.1 = some p.2 := by
    constructor
    · rintro ⟨p, hp, hne⟩
      exact ⟨p, hobs.mem_iff.mp hp, by rw [← hl]; exact hne⟩
    · rintro ⟨p, hp, hne⟩
      exact ⟨p, hobs.mem_iff.mpr hp, by rw [hl]; exact hne⟩
  constructor
  · rw [e₁, e₂, decide_eq_decide.mpr hPP]
  · rw [e₁]
    simp

/-! ## Claims about the derived entries -/

/-- C8: `TaskDocument.entry` and `TaskDocument.structure_entry` depend on
`calcs_reversed` only through its first (latest) element: replacing every
earlier step leaves them unchanged, and the `run_type` they embed is the
external classifier applied to data of `calcs_reversed[0]` alone. -/
theorem entry_depends_only_on_latest_calc
    (rtc : List (String × ℚ) → List (String × List ℚ) → String)
    (ox : Struct → String) (td : TaskDocument) (c : CalcStep)
    (r₁ r₂ : List CalcStep) :
    ({td with calcs_reversed := c :: r₁} : TaskDocument).entry rtc ox
        = ({td with calcs_reversed := c :: r₂} : TaskDocument).entry rtc ox
      ∧ ({td with calcs_reversed := c :: r₁} : TaskDocument).structure_entry rtc ox
        = ({td with calcs_reversed := c :: r₂} : TaskDocument).structure_entry rtc ox
      ∧ ({td with calcs_reversed := c :: r₁} : TaskDocument).runType rtc
        = Except.ok (rtc (c.input.getD {}).parameters
            (["LDAUL", "LDAUJ", "LDAUU"].map
              (fun k => (k, ((dictOf (c.input.getD {}).incar).lookup k).getD [])))) :=
  ⟨rfl, rfl, rfl⟩

/-- C9: `structure_entry` equals `entry` with the output structure
embedded: its structure field is the task's output structure, and every
other field is identical to the corresponding field of `entry`. -/
theorem structure_entry_extends_entry
    (rtc : List (String × ℚ) → List (String × List ℚ) → String)
    (ox : Struct → String) (td : TaskDocument) (e : ComputedEntry)
    (h : td.entry rtc ox = Except.ok e) :
    ∃ se, td.structure_entry rtc ox = Except.ok se
      ∧ se.struct = td.output.struct
      ∧ se.entry_id = e.entry_id
      ∧ se.composition = e.composition
      ∧ se.energy = e.energy
      ∧ se.correction = e.correction
      ∧ se.parameters = e.parameters
      ∧ se.data = e.data := by
  refine ⟨{ toComputedEntry := e, struct := td.output.struct },
    ?_, rfl, rfl, rfl, rfl, rfl, rfl, rfl⟩
  unfold TaskDocument.structure_entry
  rw [h, ok_bind]

/-! ## Claims about `from_task_doc` -/

/-- C2 (the manual-tag check): at line 139 the code tests
`set(task_doc.tags) | set(dep_tags_)` — the *union* of the task's tags
and the deny-list.  A task carrying no tag at all is therefore flagged
`MANUAL` as soon as the deny-list is non-empty: here `w2Task.tags = []`,
the deny-list is `["legacy-run"]`, and the result still carries `MANUAL`
and is invalid. -/
theorem manual_flag_set_union_bug :
    w2Task.tags = []
      ∧ ValidationDoc.from_task_doc wTTC wRTC w2Task (9/10) [] [] 1
          (some ["legacy-run"]) = Except.ok w2Doc
      ∧ w2Doc.reasons = [DeprecationMessage.MANUAL]
      ∧ w2Doc.valid = false := by decide

/-- C3 (counterexample): with a reference input set whose reference
`ENCUT` is zero, `from_task_doc` does not report a "cannot validate"
outcome — it raises an uncaught `ZeroDivisionError` at
`float(encut) / valid_encut`. -/
theorem zero_ref_encut_raises_cx :
    ValidationDoc.from_task_doc wTTC wRTC wTask (9/10)
        [("Structure Optimization", fun _ => w3Vis)]
        ["LDAUU", "LDAUJ", "LDAUL"] 1 none
      = Except.error PyErr.zeroDivision := by decide

/-! ## Witnesses: the conditional theorems at concrete inputs -/

/-- Witness for C1 at the concrete run on `wTask`. -/
theorem valid_iff_reasons_empty_witness :
    wDoc.valid = true ↔ wDoc.reasons = [] :=
  valid_iff_reasons_empty wTTC wRTC wTask (9/10) wInputSets
    ["LDAUU", "LDAUJ", "LDAUL"] 1 none wDoc wTask_run_eq

/-- Witness for C6 at the concrete run on `w2Task` (empty input-set
dict). -/
theorem no_input_set_only_manual_witness :
    w2Doc.data = ValidationData.empty
      ∧ DeprecationMessage.KPTS ∉ w2Doc.reasons
      ∧ DeprecationMessage.ENCUT ∉ w2Doc.reasons
      ∧ DeprecationMessage.LDAU ∉ w2Doc.reasons
      ∧ DeprecationMessage.MAX_SCF ∉ w2Doc.reasons
      ∧ (w2Doc.reasons = [] ∨ w2Doc.reasons = [DeprecationMessage.MANUAL]) :=
  no_input_set_only_manual wTTC wRTC w2Task (9/10) [] [] 1
    (some ["legacy-run"]) w2Doc rfl (by decide)

/-- Witness for C7 at the concrete run on `wTask`, whose encut ratio is
exactly 1. -/
theorem encut_flag_iff_ratio_lt_one_witness :
    ∃ r, wDoc.data.encut_ratio = some r
      ∧ (DeprecationMessage.ENCUT ∈ wDoc.reasons ↔ r < 1)
      ∧ (r = 1 → DeprecationMessage.ENCUT ∉ wDoc.reasons) :=
  encut_flag_iff_ratio_lt_one wTTC wRTC wTask (9/10) wInputSets
    ["LDAUU", "LDAUJ", "LDAUL"] 1 none wDoc (fun _ => wVis) rfl wTask_run_eq

/-- Witness for C5 at the concrete run on `wTask` (`NLEMDL = 0`). -/
theorem scf_gradient_check_spec_witness :
    ∃ g mgr,
      npGradient (wIst.electronic_steps.map (fun s => s.e_fr_energy))
          = Except.ok g
        ∧ npMax (g.drop (0 : Int).toNat) = Except.ok mgr
        ∧ wDoc.data.max_gradient = some mgr
        ∧ (DeprecationMessage.MAX_SCF ∈ wDoc.reasons ↔ mgr > 1) :=
  scf_gradient_check_spec wTTC wRTC wTask (9/10) wInputSets
    ["LDAUU", "LDAUJ", "LDAUL"] 1 none wDoc (fun _ => wVis) wCalc wIst 0
    rfl wTask_run_eq rfl rfl rfl (by decide)

/-- Witness for C10 at the concrete run on `wTask10` (no k-points
record, reference count 25). -/
theorem missing_kpoints_defaults_to_one_witness :
    numKpts wTask10.orig_inputs = 1
      ∧ ∃ vnk, validNumKpts wVis10 = Except.ok vnk
          ∧ wDoc10.data.kpts_ratio = some (npDiv 1 (vnk : ℚ))
          ∧ (vnk ≠ 0 →
              wDoc10.data.kpts_ratio = some (PyNum.fin (1 / (vnk : ℚ)))) :=
  missing_kpoints_defaults_to_one wTTC wRTC wTask10 (9/10) wInputSets10
    ["LDAUU", "LDAUJ", "LDAUL"] 1 none wDoc10 (fun _ => wVis10) rfl
    (Or.inl rfl) wTask10_run_eq

/-- Witness for the amended C3 at a concrete run against `w3Vis` (zero
reference `ENCUT`). -/
theorem zero_ref_encut_raises_witness :
    ValidationDoc.from_task_doc wTTC wRTC wTask (1/2)
        [("Structure Optimization", fun _ => w3Vis)]
        ["LDAUU", "LDAUJ", "LDAUL"] 1 none
      = Except.error PyErr.zeroDivision :=
  zero_ref_encut_raises wTTC wRTC wTask (1/2)
    [("Structure Optimization", fun _ => w3Vis)]
    ["LDAUU", "LDAUJ", "LDAUL"] 1 none (fun _ => w3Vis) 25 520
    rfl rfl rfl rfl

/-- Witness for C4 at concrete two-element inputs, reversing the element
order on both the observed and the reference side. -/
theorem ldau_check_perm_invariant_witness :
    ldauCheck wStructFeO wLdauInputs1 wLdauVis1 ["LDAUU", "LDAUJ", "LDAUL"]
        = ldauCheck wStructOFe wLdauInputs2 wLdauVis2
            ["LDAUU", "LDAUJ", "LDAUL"]
      ∧ (ldauCheck wStructFeO wLdauInputs1 wLdauVis1
            ["LDAUU", "LDAUJ", "LDAUL"] = Except.ok true
          ↔ ∃ p ∈ obsLdauParams wStructFeO wLdauInputs1
              ["LDAUU", "LDAUJ", "LDAUL"],
              ¬ wLdauRef1.lookup p.1 = some p.2) :=
  ldau_check_perm_invariant wStructFeO wStructOFe wLdauInputs1 wLdauInputs2
    wLdauVis1 wLdauVis2 ["LDAUU", "LDAUJ", "LDAUL"] wLdauRef1 wLdauRef2
    (by decide) (by decide) (by decide) (by decide) (by decide)

/-- Witness for C9 at the concrete task `wTask`. -/
theorem structure_entry_extends_entry_witness :
    ∃ se, TaskDocument.structure_entry wRTC wOX wTask = Except.ok se
      ∧ se.struct = wTask.output.struct
      ∧ se.entry_id = wEntry.entry_id
      ∧ se.composition = wEntry.composition
      ∧ se.energy = wEntry.energy
      ∧ se.correction = wEntry.correction
      ∧ se.parameters = wEntry.parameters
      ∧ se.data = wEntry.data :=
  structure_entry_extends_entry wRTC wOX wTask wEntry rfl

end Emmet
